/-
Verification of the sunnypilot per-tick control core
(selfdrive/car/interfaces.py and
selfdrive/controls/lib/sunnypilot/accel_controller.py).

The Python source is shallowly embedded: pure functions become Lean
functions, stateful methods become explicit state-passing functions,
Python floats are modelled as rationals (or reals where transcendental
functions appear), fallible code returns Except.  Strings are handled
as Lean strings with character-list helpers mirroring the Python
string operations used by the source.
-/
import Mathlib

namespace Sunnypilot

/-! ## Basic enumerations (cereal car schema values used by interfaces.py) -/

/-- Gear shifter positions (car.CarState.GearShifter). -/
inductive GearShifter where
  | park | reverse | neutral | eco | manumatic | drive | sport | low | brake | unknown
  deriving DecidableEq, Repr

/-- Button event types (car.CarState.ButtonEvent.Type). -/
inductive ButtonType where
  | accelCruise | decelCruise | resumeCruise | cancel | altButton1 | gapAdjustCruise
  deriving DecidableEq, Repr

/-- Safety event names (car.CarEvent.EventName) emitted by the code under src/. -/
inductive EventName where
  | doorOpen | seatbeltNotLatched | silentWrongGear | wrongGear
  | spReverseGear | reverseGear | wrongCarMode | espDisabled | espActive
  | stockFcw | stockAeb | speedTooHigh | wrongCruiseMode | brakeHold
  | silentBrakeHold | parkBrake | accFaulted | steerOverride
  | preEnableStandstill | gasPressedOverride | steerTempUnavailableSilent
  | steerTempUnavailable | steerUnavailable | pcmEnable | pcmDisable
  | buttonCancel | manualLongitudinalRequired | manualSteeringRequired
  | buttonEnable | silentButtonEnable | cruiseEngageBlocked
  deriving DecidableEq, Repr

/-- FORWARD_GEARS (interfaces.py line 47). -/
def FORWARD_GEARS : List GearShifter :=
  [.drive, .low, .eco, .sport, .manumatic, .brake]

/-- DT_CTRL, the control tick period in seconds (openpilot.common.realtime). -/
def DT_CTRL : ℚ := 1 / 100

/-! ## SpeedFilter: KF1D and CarStateBase.update_speed_kf (interfaces.py 771-784)

The KF1D class lives in openpilot/common/simple_kalman.py, which is not
under src/.  Modelled from the spec: "steady-state-gain Kalman filter for a
constant-velocity model: state [speed, accel], transition A = [[1, dt],[0,1]],
observation C = [1,0]; the gain K is solved once analytically at construction
and reused every tick".  The steady-state update is
x' = (A - K·C·A)·x + K·z; the gain entries K0, K1 are kept as parameters
because the source computes them numerically at construction. -/

structure KF1DState where
  x0 : ℚ
  x1 : ℚ
  deriving DecidableEq, Repr

/-- Modelled from the spec: KF1D.update from openpilot/common/simple_kalman.py
(not under src/): x' = (A - K·C·A)·x + K·z with A = [[1,dt],[0,1]], C = [1,0]. -/
def kf1d_update (K0 K1 : ℚ) (st : KF1DState) (z : ℚ) : KF1DState :=
  { x0 := (1 - K0) * st.x0 + DT_CTRL * (1 - K0) * st.x1 + K0 * z
    x1 := (-K1) * st.x0 + (1 - K1 * DT_CTRL) * st.x1 + K1 * z }

/-- CarStateBase.update_speed_kf (interfaces.py lines 779-784): if the raw
speed diverges from the filtered speed by more than 2.0, hard-set the state
to [raw, 0] before applying the ordinary Kalman update. -/
def update_speed_kf (K0 K1 : ℚ) (st : KF1DState) (v_ego_raw : ℚ) : KF1DState :=
  let st := if 2 < |v_ego_raw - st.x0| then { x0 := v_ego_raw, x1 := 0 } else st
  kf1d_update K0 K1 st v_ego_raw

/-! ## DebounceFilters (interfaces.py 796-831) -/

/-- CarStateBase.update_blinker_from_lamp (one side): counter reset to
blinker_time while the lamp is on, decremented toward 0 otherwise. -/
def update_blinker_lamp_cnt (blinker_time : ℕ) (lamp : Bool) (cnt : ℕ) : ℕ :=
  if lamp then blinker_time else cnt - 1

/-- CarStateBase.update_steering_pressed (interfaces.py 804-808): symmetric
counter hysteresis, clamped to [0, 2*min_count].  Python clips an int that
may go to -1 before the clip; modelled with integers. -/
def update_steering_pressed (cnt : ℤ) (pressed : Bool) (min_count : ℤ) : ℤ :=
  min (max (cnt + (if pressed then 1 else -1)) 0) (min_count * 2)

/-! ## AccelController (accel_controller.py) -/

def DP_ACCEL_STOCK : ℤ := 0
def DP_ACCEL_ECO : ℤ := 1
def DP_ACCEL_NORMAL : ℤ := 2
def DP_ACCEL_SPORT : ℤ := 3

def DP_CRUISE_MIN_V : List ℚ := [-1.03, -0.79, -0.77, -0.77, -0.75, -0.75, -0.88, -0.82]
def DP_CRUISE_MIN_V_ECO : List ℚ := [-1.02, -0.78, -0.75, -0.75, -0.73, -0.73, -0.80, -0.80]
def DP_CRUISE_MIN_V_SPORT : List ℚ := [-1.04, -0.81, -0.79, -0.79, -0.77, -0.77, -0.90, -0.84]
def DP_CRUISE_MIN_BP : List ℚ := [0, 0.05, 0.1, 0.5, 8.33, 16, 30, 40]

def DP_CRUISE_MAX_V : List ℚ := [2.5, 2.5, 2.5, 1.70, 1.05, 0.81, 0.625, 0.42, 0.348, 0.12]
def DP_CRUISE_MAX_V_ECO : List ℚ := [2.0, 2.0, 2.0, 1.4, 0.80, 0.68, 0.53, 0.32, 0.20, 0.085]
def DP_CRUISE_MAX_V_SPORT : List ℚ := [3.5, 3.5, 2.8, 2.4, 1.4, 1.0, 0.89, 0.75, 0.50, 0.2]
def DP_CRUISE_MAX_BP : List ℚ := [0, 1, 6, 8, 11, 15, 20, 25, 30, 55]

/-- Number of breakpoints strictly below x (the `while hi < N and xv > xp[hi]`
scan of the interpolation helper). -/
def interpHi (x : ℚ) : List ℚ → ℕ
  | [] => 0
  | p :: t => if p < x then interpHi x t + 1 else 0

/-- The clamped piecewise-linear interpolation helper `interp` from
openpilot/common/numpy_fast.py (not under src/): clamp to the first/last
value outside the breakpoint range, linear inside. -/
def interp (x : ℚ) (xp fp : List ℚ) : ℚ :=
  let hi := interpHi x xp
  if hi = xp.length then fp.getLastD 0
  else if hi = 0 then fp.headD 0
  else
    let low := hi - 1
    (x - xp.getD low 0) * (fp.getD hi 0 - fp.getD low 0)
      / (xp.getD hi 0 - xp.getD low 0) + fp.getD low 0

/-- A value passed to AccelController.set_profile: a Python int or a string. -/
inductive ProfileVal where
  | int (n : ℤ)
  | str (s : String)
  deriving DecidableEq, Repr

/-- Digits-only parse used by pyInt. -/
def parseDigits : List Char → Option ℕ
  | [] => none
  | cs => cs.foldlM (fun acc c => if c.isDigit then some (acc * 10 + (c.toNat - 48)) else none) 0

/-- Python's int() conversion on the values AccelController.set_profile
receives: an int passes through; a string parses as an optional sign plus
decimal digits (surrounding spaces stripped); anything else raises,
modelled as none. -/
def pyInt : ProfileVal → Option ℤ
  | .int n => some n
  | .str s =>
    let cs := (s.data.dropWhile (· = ' ')).reverse.dropWhile (· = ' ') |>.reverse
    match cs with
    | '-' :: rest => (parseDigits rest).map (fun n => -(n : ℤ))
    | '+' :: rest => (parseDigits rest).map (fun n => (n : ℤ))
    | _ => (parseDigits cs).map (fun n => (n : ℤ))

/-- AccelController.set_profile (accel_controller.py 50-54): the stored
profile after the call.  int(profile) failing (none) or falling outside
the four known profiles stores DP_ACCEL_STOCK; the try/except makes the
method total. -/
def set_profile (profile : ProfileVal) : ℤ :=
  match pyInt profile with
  | none => DP_ACCEL_STOCK
  | some n =>
    if n = DP_ACCEL_STOCK ∨ n = DP_ACCEL_ECO ∨ n = DP_ACCEL_NORMAL ∨ n = DP_ACCEL_SPORT then n
    else DP_ACCEL_STOCK

/-- AccelController._dp_calc_cruise_accel_limits (accel_controller.py 56-69). -/
def dp_calc_cruise_accel_limits (profile : ℤ) (v_ego : ℚ) : ℚ × ℚ :=
  let min_v := if profile = DP_ACCEL_ECO then DP_CRUISE_MIN_V_ECO
               else if profile = DP_ACCEL_SPORT then DP_CRUISE_MIN_V_SPORT
               else DP_CRUISE_MIN_V
  let max_v := if profile = DP_ACCEL_ECO then DP_CRUISE_MAX_V_ECO
               else if profile = DP_ACCEL_SPORT then DP_CRUISE_MAX_V_SPORT
               else DP_CRUISE_MAX_V
  (interp v_ego DP_CRUISE_MIN_BP min_v, interp v_ego DP_CRUISE_MAX_BP max_v)

/-- AccelController.get_accel_limits (accel_controller.py 71-72). -/
def get_accel_limits (profile : ℤ) (v_ego : ℚ) (accel_limits : ℚ × ℚ) : ℚ × ℚ :=
  if profile = DP_ACCEL_STOCK then accel_limits else dp_calc_cruise_accel_limits profile v_ego

/-- AccelController.is_enabled (accel_controller.py 74-75). -/
def is_enabled (profile : ℤ) : Bool :=
  profile ≠ DP_ACCEL_STOCK

/-! ## String helpers mirroring the Python string operations -/

/-- One pass of Python's str.replace with empty replacement: remove
left-to-right non-overlapping occurrences of pat (fuelled recursion;
fuel = length of s suffices since each step consumes at least one char). -/
def replaceAllAux : ℕ → List Char → List Char → List Char
  | 0, s, _ => s
  | _ + 1, [], _ => []
  | fuel + 1, c :: t, pat =>
    if pat ≠ [] ∧ pat.isPrefixOf (c :: t) then replaceAllAux fuel ((c :: t).drop pat.length) pat
    else c :: replaceAllAux fuel t pat

/-- Python `s.replace(pat, "")`. -/
def strRemove (s pat : String) : String :=
  ⟨replaceAllAux s.data.length s.data pat.data⟩

/-- Substring containment on character lists. -/
def containsSubL : List Char → List Char → Bool
  | hay, needle =>
    needle.isPrefixOf hay ||
      match hay with
      | [] => false
      | _ :: t => containsSubL t needle

/-- Python `needle in hay` on strings. -/
def strIn (needle hay : String) : Bool :=
  containsSubL hay.data needle.data

/-- Python `s.endswith(suf)`. -/
def strEndsWith (s suf : String) : Bool :=
  suf.data.isSuffixOf s.data

/-! ## similarity (interfaces.py 51-52): difflib.SequenceMatcher ratio

SequenceMatcher (no junk; autojunk never fires on the short names involved)
recursively decomposes the two strings along longest matching blocks
(for equal-size blocks the one starting earliest in the first string, then
earliest in the second, wins) and returns 2*M/T where M is the total matched
length and T the sum of lengths (1 when both strings are empty). -/

/-- Length of the longest common prefix of two character lists. -/
def commonPrefixLen : List Char → List Char → ℕ
  | a :: as, b :: bs => if a = b then commonPrefixLen as bs + 1 else 0
  | _, _ => 0

/-- The longest matching block of two character lists: (i, j, k) with
a[i:i+k] = b[j:j+k], k maximal, ties broken by smallest i then smallest j
(matching SequenceMatcher.find_longest_match without junk). -/
def longestMatch (a b : List Char) : ℕ × ℕ × ℕ :=
  (List.range a.length).foldl (fun acc i =>
    (List.range b.length).foldl (fun acc2 j =>
      let k := commonPrefixLen (a.drop i) (b.drop j)
      if acc2.2.2 < k then (i, j, k) else acc2) acc) (0, 0, 0)

/-- Total size of the matching blocks of SequenceMatcher: recursively take
the longest matching block and recurse on the pieces left and right of it.
Fuel bounded by the total length of both lists. -/
def matchTotal : ℕ → List Char → List Char → ℕ
  | 0, _, _ => 0
  | fuel + 1, a, b =>
    let m := longestMatch a b
    let i := m.1
    let j := m.2.1
    let k := m.2.2
    if k = 0 then 0
    else matchTotal fuel (a.take i) (b.take j) + k +
         matchTotal fuel (a.drop (i + k)) (b.drop (j + k))

/-- similarity (interfaces.py 51-52): SequenceMatcher(None, s1, s2).ratio(). -/
def similarity (s1 s2 : String) : ℚ :=
  let a := s1.data
  let b := s2.data
  let t := a.length + b.length
  if t = 0 then 1
  else 2 * (matchTotal t a b : ℚ) / (t : ℚ)

/-! ## get_nn_model_path (interfaces.py 177-201) -/

/-- TORQUE_NN_MODEL_PATH (interfaces.py 42), relative to BASEDIR. -/
def TORQUE_NN_MODEL_PATH : String := "selfdrive/car/torque_data/lat_models"

/-- The similarity between a directory entry's model name (filename with
".json" removed; the directory-prefix removal is a no-op on bare
filenames) and the query (interfaces.py 183-184). -/
def nn_model_score (check_model f : String) : ℚ :=
  similarity (strRemove (strRemove f ".json") (TORQUE_NN_MODEL_PATH ++ "/")) check_model

/-- One step of the check_nn_path scan (interfaces.py 181-187): a .json
entry replaces the best match when its similarity strictly exceeds the
running maximum. -/
def nn_scan_step (check_model : String) (acc : Option String × ℚ) (f : String) :
    Option String × ℚ :=
  if strEndsWith f ".json" then
    if acc.2 < nn_model_score check_model f
    then (some (TORQUE_NN_MODEL_PATH ++ "/" ++ f), nn_model_score check_model f)
    else acc
  else acc

/-- The inner check_nn_path closure (interfaces.py 178-188): scan the model
directory listing for the .json entry of highest similarity to the query.
The accumulator starts at (None, -1.0); the first file of a tied score
wins. -/
def check_nn_path (files : List String) (check_model : String) : Option String × ℚ :=
  files.foldl (nn_scan_step check_model) (none, -1)

/-- get_nn_model_path (interfaces.py 177-201).  The directory listing is an
explicit argument.  When the eps firmware string is longer than 3 characters
the query is "{car} {eps}" with backslashes removed, else just the car name.
`_car not in model_path` on a None path raises TypeError in Python, modelled
as Except.error; otherwise a pass is accepted when the path contains the car
name and the similarity is at least 0.9 (the guard is 0.0 <= s < 0.9), with
one retry on the car name alone before giving up with (None, score). -/
def get_nn_model_path (files : List String) (car eps_firmware : String) :
    Except String (Option String × ℚ) :=
  let check_model := if 3 < eps_firmware.length
    then car ++ " " ++ strRemove eps_firmware "\\"
    else car
  let r1 := check_nn_path files check_model
  match r1 with
  | (none, _) => .error "TypeError: argument of type NoneType is not iterable"
  | (some p, max_similarity) =>
    if strIn car p = false ∨ (0 ≤ max_similarity ∧ max_similarity < 9 / 10) then
      let r2 := check_nn_path files car
      match r2 with
      | (none, _) => .error "TypeError: argument of type NoneType is not iterable"
      | (some p2, ms2) =>
        if strIn car p2 = false ∨ (0 ≤ ms2 ∧ ms2 < 9 / 10) then .ok (none, ms2)
        else .ok (some p2, ms2)
    else .ok (some p, max_similarity)

/-- The model-file listing of the spec's fuzzy-match example. -/
def accordFiles : List String :=
  ["Accord 1.0.json", "Accord 2.1.json", "Civic 3.0.json"]

/-! ## FluxModel (interfaces.py 107-174)

Numeric values are modelled as reals so the logistic sigmoid is exact.
Activations are the closed set validated by validate_layers/
ACTIVATION_FUNCTION_NAMES: identity and sigmoid. -/

/-- The activation functions defined on FluxModel (interfaces.py 134-141);
validate_layers rejects any other name at construction. -/
inductive Activation where
  | identity | sigmoid
  deriving DecidableEq, Repr

noncomputable def applyActivation : Activation → ℝ → ℝ
  | .identity, x => x
  | .sigmoid, x => 1 / (1 + Real.exp (-x))

structure FluxLayer where
  W : List (List ℝ)
  b : List ℝ
  activation : Activation

structure FluxModel where
  input_size : ℕ
  output_size : ℕ
  input_mean : List ℝ
  input_std : List ℝ
  layers : List FluxLayer

noncomputable def dotProdR (a b : List ℝ) : ℝ :=
  (List.zipWith (fun x y => x * y) a b).sum

/-- Row-vector times matrix (numpy x.dot(W) with W stored as rows). -/
noncomputable def vecMat (x : List ℝ) (W : List (List ℝ)) : List ℝ :=
  W.transpose.map (fun col => dotProdR x col)

/-- FluxModel.forward (interfaces.py 143-146): fold the layer stack,
each layer computing activation(x·W + b) elementwise. -/
noncomputable def fluxForward (layers : List FluxLayer) (x : List ℝ) : List ℝ :=
  layers.foldl (fun v l =>
    (List.zipWith (fun a b => a + b) (vecMat v l.W) l.b).map (applyActivation l.activation)) x

/-- The body of FluxModel.evaluate after the length check (interfaces.py
158-165): normalize by per-feature mean/std, forward, take entry [0,0]. -/
noncomputable def fluxEvalCore (m : FluxModel) (x : List ℝ) : ℝ :=
  let normalized := List.zipWith (fun v s => v / s)
    (List.zipWith (fun v mu => v - mu) x m.input_mean) m.input_std
  (fluxForward m.layers normalized).headD 0

/-- FluxModel.evaluate (interfaces.py 148-165): an input shorter than the
model's input size but of length at least 2 is zero-padded at the tail
(the "simplified evaluation" path); a shorter input raises ValueError,
modelled as Except.error. -/
noncomputable def fluxEvaluate (m : FluxModel) (input_array : List ℝ) :
    Except String ℝ :=
  let in_len := input_array.length
  if in_len ≠ m.input_size then
    if 2 ≤ in_len then
      .ok (fluxEvalCore m (input_array ++ List.replicate (m.input_size - in_len) 0))
    else .error "ValueError: Input array length must be length 2 or greater"
  else .ok (fluxEvalCore m input_array)

/-- A concrete two-layer model with input size 3 used to instantiate the
evaluate theorems. -/
noncomputable def fluxProbeModel : FluxModel :=
  { input_size := 3
    output_size := 1
    input_mean := [0, 0, 0]
    input_std := [1, 1, 1]
    layers := [⟨[[1], [1], [1]], [0], .identity⟩] }

/-! ## get_torque_params (interfaces.py 77-104)

The three toml layers are modelled as association lists.  The 'legend'
entry of params.toml (a list of column names, excluded from the candidate
set by the source) is kept as a separate argument so the value lists stay
homogeneous; a substitution alias naming the literal key "legend" is the
only behaviour this cannot express.  Python iterates the candidate set in
unspecified order; the embedding fixes the order keys-of-sub ++ keys-of-
params ++ keys-of-override, deduplicated.  Python dict assignment is
modelled by prepending (List.lookup returns the newest binding). -/

/-- In how many of the three layers a candidate key occurs
(`sum([candidate in x for x in [sub, params, override]])`). -/
def layerCount (sub : List (String × String)) (params override : List (String × List ℚ))
    (candidate : String) : ℕ :=
  (if (sub.lookup candidate).isSome then 1 else 0) +
  (if (params.lookup candidate).isSome then 1 else 0) +
  (if (override.lookup candidate).isSome then 1 else 0)

/-- `sub.get(candidate, candidate)`. -/
def resolveKey (sub : List (String × String)) (candidate : String) : String :=
  (sub.lookup candidate).getD candidate

/-- Store the record under the resolved key, and under the alias too when
the candidate is a substitution alias (interfaces.py 100-102). -/
def insertRecords (sub : List (String × String)) (acc : List (String × List (String × ℚ)))
    (candidate sub_candidate : String) (rec : List (String × ℚ)) :
    List (String × List (String × ℚ)) :=
  let acc := (sub_candidate, rec) :: acc
  if (sub.lookup candidate).isSome then (candidate, rec) :: acc else acc

/-- The per-candidate body of the get_torque_params loop (interfaces.py
88-102): duplicate-layer check, alias resolution, override-then-params
lookup, record construction from the legend, dict insertion for the
resolved key and (for aliases) the alias itself. -/
def torqueStep (sub : List (String × String)) (params override : List (String × List ℚ))
    (legend : List String) (acc : List (String × List (String × ℚ))) (candidate : String) :
    Except String (List (String × List (String × ℚ))) :=
  if 1 < layerCount sub params override candidate then
    .error (candidate ++ " is defined twice in torque config")
  else
    let sub_candidate := resolveKey sub candidate
    match override.lookup sub_candidate with
    | some out => .ok (insertRecords sub acc candidate sub_candidate (legend.zip out))
    | none =>
      match params.lookup sub_candidate with
      | some out => .ok (insertRecords sub acc candidate sub_candidate (legend.zip out))
      | none => .error ("Did not find torque params for " ++ sub_candidate)

/-- The candidate key set `(sub.keys | params.keys | override.keys) - {'legend'}`
(interfaces.py 87); Python iterates a set, so the embedding fixes one
duplicate-free order. -/
def torqueCandidates (sub : List (String × String))
    (params override : List (String × List ℚ)) : List String :=
  ((sub.map Prod.fst ++ params.map Prod.fst ++ override.map Prod.fst).dedup).filter
    (fun c => c ≠ "legend")

/-- get_torque_params (interfaces.py 77-104) over explicit layer contents. -/
def get_torque_params (sub : List (String × String)) (params override : List (String × List ℚ))
    (legend : List String) : Except String (List (String × List (String × ℚ))) :=
  (torqueCandidates sub params override).foldlM
    (fun acc c => torqueStep sub params override legend acc c) []

/-- The per-candidate condition under which the get_torque_params loop body
does not raise: the key is not in more than one layer, and its resolved key
is found in the override or base table. -/
def torqueStepOK (sub : List (String × String)) (params override : List (String × List ℚ))
    (c : String) : Prop :=
  layerCount sub params override c ≤ 1 ∧
  ((override.lookup (resolveKey sub c)).isSome ∨ (params.lookup (resolveKey sub c)).isSome)

/-- Whether an Except value is the error case. -/
def exceptIsError {ε α : Type} : Except ε α → Bool
  | .error _ => true
  | .ok _ => false

instance torqueStepOK_dec (sub : List (String × String)) (params override : List (String × List ℚ))
    (c : String) : Decidable (torqueStepOK sub params override c) := by
  unfold torqueStepOK
  infer_instance

/-! ## get_sp_started_mads (interfaces.py 598-616)

The interface attributes madsEnabledInit / madsEnabledInitPrev /
last_mads_init form the state; the per-tick inputs bundle the snapshot
fields the method reads plus the injectable monotonic clock (the source
calls time.monotonic(); all calls within one tick are modelled as the
same instant). -/

structure MadsState where
  madsEnabledInit : Bool
  madsEnabledInitPrev : Bool
  last_mads_init : ℚ
  deriving DecidableEq, Repr

structure MadsInput where
  /-- cs_out.cruiseState.available -/
  available : Bool
  /-- CS.out.cruiseState.available (previous tick's output) -/
  prevAvailable : Bool
  /-- self.CS.params_list.mads_main_toggle -/
  mads_main_toggle : Bool
  /-- self.prev_acc_mads_combo -/
  prev_acc_mads_combo : Bool
  /-- CS.madsEnabled (the requested armed state entering the call) -/
  madsEnabled : Bool
  /-- cs_out.gearShifter -/
  gearShifter : GearShifter
  /-- time.monotonic() during this tick -/
  now : ℚ
  deriving DecidableEq, Repr

/-- The state after the two window-bookkeeping statements of
get_sp_started_mads (interfaces.py 605-609): begin the window when arming
is first requested, and restart it on any tick whose gear is not a forward
gear; its last_mads_init is the pending window's start time. -/
def mads_st2 (st : MadsState) (i : MadsInput) : MadsState :=
  let st1 := if ¬st.madsEnabledInit ∧ i.madsEnabled then
      { st with madsEnabledInit := true, last_mads_init := i.now } else st
  if i.gearShifter ∉ FORWARD_GEARS then { st1 with last_mads_init := i.now } else st1

/-- CarInterfaceBase.get_sp_started_mads (interfaces.py 598-616): returns
the updated interface state and the reported armed value. -/
def get_sp_started_mads (st : MadsState) (i : MadsInput) : MadsState × Bool :=
  if ¬i.available ∧ i.prevAvailable then
    ({ st with madsEnabledInit := false, madsEnabledInitPrev := false }, false)
  else if ¬i.mads_main_toggle ∨ i.prev_acc_mads_combo then
    (st, i.madsEnabled)
  else
    let st2 := mads_st2 st i
    if st2.madsEnabledInit ∧ (¬st2.madsEnabledInitPrev ∨ i.gearShifter ∉ FORWARD_GEARS) then
      if i.now < st2.last_mads_init + 1 then (st2, false)
      else ({ st2 with madsEnabledInitPrev := true }, i.available)
    else (st2, i.madsEnabled)

/-- The interface state at construction (interfaces.py 247-249). -/
def madsInit : MadsState := ⟨false, false, 0⟩

/-- The claim's debounce property over a tick run: whenever the reported
value is armed, at least 1.0 second has elapsed since the pending window
started, where the window start is the state's last_mads_init bookkeeping
(begun when arming is first requested and restarted on every tick whose
gear is not a forward gear, exactly as the claim describes). -/
def madsDebounceProp : MadsState → List MadsInput → Prop
  | _, [] => True
  | st, i :: rest =>
    let r := get_sp_started_mads st i
    (r.2 = true → r.1.last_mads_init + 1 ≤ i.now) ∧ madsDebounceProp r.1 rest

/-- The four-tick run refuting C1: arm in drive at t=0, window elapses by
t=2, shift out of a forward gear at t=2.01 (restarting the window), shift
back to drive at t=2.02. -/
def c1Run : List MadsInput :=
  [⟨true, true, true, false, true, .drive, 0⟩,
   ⟨true, true, true, false, true, .drive, 2⟩,
   ⟨true, true, true, false, true, .park, 201 / 100⟩,
   ⟨true, true, true, false, true, .drive, 202 / 100⟩]

/-! ## get_sp_common_state / create_common_events / create_sp_events
(interfaces.py 453-544, 582-586, 618-729)

The per-tick snapshot record carries the cs_out fields these methods read
or write; the same record type serves for CS.out, the previous tick's
copy.  Persistent CarState attributes (interfaces.py 761-766) form CsState.
Configuration flags resolved at startup form SpParams;
lane_change_speed_min stands for the value of the external helper
get_min_lateral_speed (not under src/). -/

structure CsOut where
  gearShifter : GearShifter
  doorOpen : Bool
  seatbeltUnlatched : Bool
  gasPressed : Bool
  brakePressed : Bool
  regenBraking : Bool
  standstill : Bool
  brakeHoldActive : Bool
  parkingBrake : Bool
  vEgo : ℚ
  espDisabled : Bool
  espActive : Bool
  stockFcw : Bool
  stockAeb : Bool
  cruiseAvailable : Bool
  cruiseEnabled : Bool
  cruiseNonAdaptive : Bool
  accFaulted : Bool
  steeringPressed : Bool
  steerFaultTemporary : Bool
  steerFaultPermanent : Bool
  madsEnabled : Bool
  accEnabled : Bool
  disengageByBrake : Bool
  latActive : Bool
  belowLaneChangeSpeed : Bool
  brakeLights : Bool
  buttonEvents : List (ButtonType × Bool)
  deriving DecidableEq, Repr

/-- Persistent CarStateBase attributes (interfaces.py 761-766). -/
structure CsState where
  accEnabled : Bool
  madsEnabled : Bool
  disengageByBrake : Bool
  controlInitialized : Bool
  deriving DecidableEq, Repr

structure ExpState where
  gap_button_counter : ℕ
  experimental_mode_hold : Bool
  experimental_mode : Bool
  deriving DecidableEq, Repr

/-- Startup configuration flags read by the state-machine methods. -/
structure SpParams where
  pcmCruise : Bool
  pcmCruiseSpeed : Bool
  enable_mads : Bool
  disengage_on_accelerator : Bool
  openpilotLongitudinalControl : Bool
  lane_change_speed_min : ℚ
  below_speed_pause : Bool
  reverse_dm_cam : Bool
  deriving DecidableEq, Repr

/-- CarInterfaceBase.get_sp_pedal_disengage (interfaces.py 582-586), also
the guard of the disengage block in get_sp_common_state (lines 644-646):
gas rising edge (when configured), brake pressed on a rising edge or while
moving, regen braking likewise. -/
def sp_pedal_disengage (disengage_on_accelerator : Bool) (prev cs : CsOut) : Bool :=
  (cs.gasPressed && !prev.gasPressed && disengage_on_accelerator) ||
  (cs.brakePressed && (!prev.brakePressed || !cs.standstill)) ||
  (cs.regenBraking && (!prev.regenBraking || !cs.standstill))

/-- CarInterfaceBase.toggle_exp_mode (interfaces.py 658-668); the
ExperimentalMode param write is modelled as the experimental_mode flag. -/
def toggle_exp_mode (st : ExpState) (gap_pressed : Bool) : ExpState :=
  if gap_pressed then
    if ¬st.experimental_mode_hold then
      let c := st.gap_button_counter + 1
      if 50 < c then ⟨0, true, !st.experimental_mode⟩
      else ⟨c, st.experimental_mode_hold, st.experimental_mode⟩
    else st
  else ⟨0, false, st.experimental_mode⟩

/-- The cruise-enabled override at the top of get_sp_common_state
(interfaces.py 619). -/
def sp_cruise_enabled_override (P : SpParams) (cs : CsOut) (CS : CsState) : Bool :=
  if ¬P.pcmCruise ∨ ¬P.pcmCruiseSpeed then CS.accEnabled else cs.cruiseEnabled

/-- CS.madsEnabled after the MADS/cruise synchronisation block of
get_sp_common_state (interfaces.py 621-625), which runs only when the
MADS feature is disabled. -/
def sp_mads_after_sync (P : SpParams) (prev cs : CsOut) (CS : CsState) : Bool :=
  let ce := sp_cruise_enabled_override P cs CS
  if ¬P.enable_mads then
    (if ce ∧ ¬prev.cruiseEnabled then true
     else if ¬ce ∧ prev.cruiseEnabled then false
     else CS.madsEnabled)
  else CS.madsEnabled

/-- CS.disengageByBrake after the pedal-edge block of get_sp_common_state
(interfaces.py 643-648). -/
def sp_dbb_after_common (P : SpParams) (prev cs : CsOut) (CS : CsState) : Bool :=
  if sp_pedal_disengage P.disengage_on_accelerator prev cs ∧ sp_mads_after_sync P prev cs CS
  then true else CS.disengageByBrake

/-- CarInterfaceBase.get_sp_common_state (interfaces.py 618-655): cruise
state override for non-PCM control, MADS sync when MADS is disabled,
experiment-mode button hold, lane-change pause threshold, gear/door/
seatbelt lateral gate, pedal-edge disengageByBrake latch, state copies. -/
def get_sp_common_state (P : SpParams) (prev cs : CsOut) (CS : CsState) (exp : ExpState)
    (gear_allowed gap_button : Bool) : CsOut × CsState × ExpState :=
  let cruiseEnabled := sp_cruise_enabled_override P cs CS
  let mads1 := sp_mads_after_sync P prev cs CS
  let exp1 := if P.openpilotLongitudinalControl then toggle_exp_mode exp gap_button else exp
  let belowLCS := decide (cs.vEgo < P.lane_change_speed_min) && P.below_speed_pause
  let allowed := if cs.gearShifter = .park ∨ cs.gearShifter = .reverse ∨ cs.doorOpen ∨
      (cs.seatbeltUnlatched ∧ cs.gearShifter ≠ .park) then false else gear_allowed
  let dbb := sp_dbb_after_common P prev cs CS
  ({ cs with cruiseEnabled := cruiseEnabled
             belowLaneChangeSpeed := belowLCS
             latActive := allowed
             madsEnabled := mads1
             accEnabled := CS.accEnabled
             disengageByBrake := dbb
             brakeLights := cs.brakeLights || cs.brakePressed || cs.brakeHoldActive ||
               cs.parkingBrake || cs.regenBraking },
   { CS with madsEnabled := mads1, controlInitialized := true, disengageByBrake := dbb },
   exp1)

/-- Interface attributes mutated by create_common_events
(interfaces.py 241, 219-222). -/
structure IfaceState where
  gear_warning : ℕ
  steering_unpressed : ℕ
  no_steer_warning : Bool
  silent_steer_warning : Bool
  deriving DecidableEq, Repr

/-- Append event e when condition c holds (events.add under a guard;
insertion order is evaluation order). -/
def addIf (c : Prop) [Decidable c] (e : EventName) (es : List EventName) : List EventName :=
  if c then es ++ [e] else es

/-- V_CRUISE_MAX (kph) from openpilot drive_helpers (not under src/). -/
def V_CRUISE_MAX : ℚ := 145

def KPH_TO_MS : ℚ := 5 / 18

/-- MAX_CTRL_SPEED (interfaces.py 34). -/
def MAX_CTRL_SPEED : ℚ := (V_CRUISE_MAX + 4) * KPH_TO_MS

/-- CarInterfaceBase.create_common_events (interfaces.py 453-544): the
tick's common safety-event list, the updated warning counters, and the
cs_out copy (whose disengageByBrake the brake-hold block may set).  The
button-press block of the source (lines 507-514) is commented out there
and therefore absent here. -/
def create_common_events (P : SpParams) (prev : CsOut) (iface : IfaceState) (cs : CsOut)
    (latActive longActive : Bool) (extra_gears : Option (List GearShifter))
    (pcm_enable allow_enable : Bool) : List EventName × IfaceState × CsOut :=
  let es : List EventName := []
  let es := addIf (cs.doorOpen ∧ (latActive ∨ longActive)) .doorOpen es
  let es := addIf (cs.seatbeltUnlatched ∧ cs.gearShifter ≠ .park) .seatbeltNotLatched es
  let wrongGearCond : Bool := decide (cs.gearShifter ≠ .drive) &&
      (match extra_gears with | none => true | some gs => decide (cs.gearShifter ∉ gs)) &&
      !(decide (cs.gearShifter = .unknown) && decide (iface.gear_warning < 50))
  let es := addIf (wrongGearCond ∧ cs.vEgo < 5) .silentWrongGear es
  let es := addIf (wrongGearCond ∧ ¬cs.vEgo < 5) .wrongGear es
  let es := addIf (cs.gearShifter = .reverse ∧ ¬P.reverse_dm_cam ∧ cs.vEgo < 5) .spReverseGear es
  let es := addIf (cs.gearShifter = .reverse ∧ ¬(¬P.reverse_dm_cam ∧ cs.vEgo < 5) ∧ 5 ≤ cs.vEgo)
    .reverseGear es
  let es := addIf (¬cs.cruiseAvailable ∧ cs.cruiseEnabled) .wrongCarMode es
  let es := addIf (cs.espDisabled = true) .espDisabled es
  let es := addIf (cs.espActive = true) .espActive es
  let es := addIf (cs.stockFcw = true) .stockFcw es
  let es := addIf (cs.stockAeb = true) .stockAeb es
  let es := addIf (MAX_CTRL_SPEED < cs.vEgo) .speedTooHigh es
  let es := addIf (cs.cruiseNonAdaptive = true) .wrongCruiseMode es
  let dbbOut := if cs.brakeHoldActive ∧ P.openpilotLongitudinalControl ∧ cs.madsEnabled then true
                else cs.disengageByBrake
  let es := addIf (cs.brakeHoldActive ∧ P.openpilotLongitudinalControl ∧ cs.cruiseEnabled)
    .brakeHold es
  let es := addIf (cs.brakeHoldActive ∧ P.openpilotLongitudinalControl ∧ ¬cs.cruiseEnabled)
    .silentBrakeHold es
  let es := addIf (cs.parkingBrake = true) .parkBrake es
  let es := addIf (cs.accFaulted = true) .accFaulted es
  let es := addIf (cs.steeringPressed = true) .steerOverride es
  let es := addIf (cs.brakePressed ∧ cs.standstill ∧ cs.cruiseEnabled) .preEnableStandstill es
  let es := addIf (cs.gasPressed ∧ cs.cruiseEnabled) .gasPressedOverride es
  let gear_warning1 := if cs.gearShifter = .unknown then iface.gear_warning + 1 else 0
  let steering_unpressed1 := if cs.steeringPressed then 0 else iface.steering_unpressed + 1
  -- Temporary steer fault block (interfaces.py 518-532): "quiet" is the
  -- driver-override branch that only raises no_steer_warning; otherwise a
  -- silent or loud steerTempUnavailable variant is emitted.
  let steerTempQuiet : Prop :=
    cs.steeringPressed ∧ (¬prev.steerFaultTemporary ∨ iface.no_steer_warning)
  let steerTempSilent : Prop :=
    iface.silent_steer_warning ∨ cs.standstill ∨ steering_unpressed1 < 150
  let es := addIf (cs.steerFaultTemporary ∧ ¬steerTempQuiet ∧ steerTempSilent)
    .steerTempUnavailableSilent es
  let es := addIf (cs.steerFaultTemporary ∧ ¬steerTempQuiet ∧ ¬steerTempSilent)
    .steerTempUnavailable es
  let no_steer_warning1 : Bool := cs.steerFaultTemporary && decide steerTempQuiet
  let silent_steer_warning1 : Bool :=
    if cs.steerFaultTemporary then
      (if steerTempQuiet then iface.silent_steer_warning
       else if steerTempSilent then true else iface.silent_steer_warning)
    else false
  let es := addIf (cs.steerFaultPermanent = true) .steerUnavailable es
  let es := addIf (pcm_enable ∧ cs.cruiseEnabled ∧ ¬prev.cruiseEnabled ∧ allow_enable)
    .pcmEnable es
  let es := addIf (pcm_enable ∧ ¬(cs.cruiseEnabled ∧ ¬prev.cruiseEnabled ∧ allow_enable) ∧
    ¬cs.cruiseEnabled) .pcmDisable es
  (es, ⟨gear_warning1, steering_unpressed1, no_steer_warning1, silent_steer_warning1⟩,
   { cs with disengageByBrake := dbbOut })

/-- Non-state arguments of create_sp_events (interfaces.py 670-672). -/
structure SpEventsIn where
  main_enabled : Bool
  allow_enable : Bool
  enable_pressed : Bool
  enable_from_brake : Bool
  enable_pressed_long : Bool
  enable_buttons : List ButtonType
  deriving DecidableEq, Repr

/-- The body of the button loop of create_sp_events (interfaces.py
681-703), one button event at a time; the running state is (events,
enable_pressed, enable_pressed_long, cruise_cancelled_btn). -/
def sp_button_step (pcmCruise enable_mads : Bool) (enable_buttons : List ButtonType)
    (madsEnabled cruiseEnabled : Bool)
    (st : List EventName × Bool × Bool × Bool) (b : ButtonType × Bool) :
    List EventName × Bool × Bool × Bool :=
  let es := st.1
  let ep := st.2.1
  let epl := st.2.2.1
  let latch := st.2.2.2
  let ep2 := if ¬pcmCruise ∧ b.1 ∈ enable_buttons ∧ ¬b.2 then true else ep
  let epl2 := if ¬pcmCruise ∧ b.1 ∈ enable_buttons ∧ ¬b.2 then true else epl
  let cancelRes :=
    if b.1 = .cancel then
      if ¬madsEnabled then (es ++ [.buttonCancel], latch)
      else if ¬latch then (es ++ [.manualLongitudinalRequired], true)
      else (es, latch)
    else (es, latch)
  let es2 := cancelRes.1
  let latch2 := cancelRes.2
  let madsRes :=
    if b.1 = .altButton1 ∧ b.2 ∧ enable_mads then
      if ¬madsEnabled then
        (if ¬cruiseEnabled then (es2 ++ [.buttonCancel], ep2)
         else (es2 ++ [.manualSteeringRequired], ep2))
      else (if ¬cruiseEnabled then (es2, true) else (es2, ep2))
    else (es2, ep2)
  (madsRes.1, madsRes.2, epl2, latch2)

/-- CarInterfaceBase.create_sp_events (interfaces.py 670-729): pedal-release
re-engage and disengageByBrake clear, the button loop, the PCM enable/
cancel block, buttonEnable emission, cruiseEngageBlocked, and the cancel
latch reset.  Returns (events, cs_out, CS.disengageByBrake,
cruise_cancelled_btn). -/
def create_sp_events (P : SpParams) (mainButtons : List Bool) (prev : CsOut)
    (CSdbb : Bool) (latch : Bool) (cs : CsOut) (events : List EventName)
    (args : SpEventsIn) : List EventName × CsOut × Bool × Bool :=
  let noPedal := ¬cs.brakePressed ∧ ¬cs.brakeHoldActive ∧ ¬cs.parkingBrake ∧ ¬cs.regenBraking
  let ep0 := if noPedal ∧ cs.disengageByBrake ∧ cs.madsEnabled then true else args.enable_pressed
  let efb := if noPedal ∧ cs.disengageByBrake ∧ cs.madsEnabled then true else args.enable_from_brake
  let CSdbb1 := if noPedal then false else CSdbb
  let csdbb1 := if noPedal then false else cs.disengageByBrake
  let folded := cs.buttonEvents.foldl
    (sp_button_step P.pcmCruise P.enable_mads args.enable_buttons cs.madsEnabled cs.cruiseEnabled)
    (events, ep0, args.enable_pressed_long, latch)
  let es := folded.1
  let ep1 := folded.2.1
  let epl1 := folded.2.2.1
  let es := if P.pcmCruise ∧ args.main_enabled ∧ mainButtons.any id ∧ ¬cs.cruiseEnabled ∧
      ¬cs.madsEnabled then es ++ [.buttonCancel] else es
  let pcmRes :=
    if P.pcmCruise then
      if cs.cruiseEnabled ∧ ¬prev.cruiseEnabled ∧ args.allow_enable then
        (es, true, true, cs.madsEnabled)
      else if ¬cs.cruiseEnabled then
        if ¬cs.madsEnabled then (es ++ [.buttonCancel], ep1, epl1, cs.madsEnabled)
        else if ¬P.enable_mads then (es, ep1, epl1, false)
        else (es, ep1, epl1, cs.madsEnabled)
      else (es, ep1, epl1, cs.madsEnabled)
    else (es, ep1, epl1, cs.madsEnabled)
  let es := pcmRes.1
  let ep2 := pcmRes.2.1
  let epl2 := pcmRes.2.2.1
  let madsOut := pcmRes.2.2.2
  let es := if ep2 then (if efb then es ++ [.silentButtonEnable] else es ++ [.buttonEnable]) else es
  let es := if csdbb1 ∧ ¬cs.standstill ∧ epl2 then es ++ [.cruiseEngageBlocked] else es
  let latch2 := if cs.cruiseEnabled then false else true
  (es, { cs with disengageByBrake := csdbb1, madsEnabled := madsOut }, CSdbb1, latch2)

/-- The per-tick composition performed by the per-make interfaces (callers
outside src/): get_sp_common_state, then create_common_events on its
output snapshot, then create_sp_events.  Returns (events, cs_out,
CS.disengageByBrake, cruise_cancelled_btn) after the tick. -/
def sp_tick (P : SpParams) (prev cs : CsOut) (CS : CsState) (exp : ExpState)
    (iface : IfaceState) (gear_allowed gap_button latActive longActive : Bool)
    (extra_gears : Option (List GearShifter)) (pcm_enable allow_enable : Bool)
    (mainButtons : List Bool) (latch : Bool) (args : SpEventsIn) :
    List EventName × CsOut × Bool × Bool :=
  let r1 := get_sp_common_state P prev cs CS exp gear_allowed gap_button
  let r2 := create_common_events P prev iface r1.1 latActive longActive extra_gears
    pcm_enable allow_enable
  create_sp_events P mainButtons prev (r1.2.1).disengageByBrake latch r2.2.2 r2.1 args

/-! ## Concrete tick inputs used by the per-claim counterexamples and
witnesses -/

/-- A non-PCM configuration with MADS enabled. -/
def spNoPcm : SpParams :=
  { pcmCruise := false, pcmCruiseSpeed := false, enable_mads := true,
    disengage_on_accelerator := false, openpilotLongitudinalControl := false,
    lane_change_speed_min := 0, below_speed_pause := false, reverse_dm_cam := false }

/-- A cruising snapshot with MADS armed, cruise enabled and two cancel
button edges (rising then falling) this tick. -/
def csCancelTwice : CsOut :=
  { gearShifter := .drive, doorOpen := false, seatbeltUnlatched := false,
    gasPressed := false, brakePressed := false, regenBraking := false,
    standstill := true, brakeHoldActive := false, parkingBrake := false,
    vEgo := 0, espDisabled := false, espActive := false, stockFcw := false,
    stockAeb := false, cruiseAvailable := true, cruiseEnabled := true,
    cruiseNonAdaptive := false, accFaulted := false, steeringPressed := false,
    steerFaultTemporary := false, steerFaultPermanent := false,
    madsEnabled := true, accEnabled := false, disengageByBrake := false,
    latActive := true, belowLaneChangeSpeed := false, brakeLights := false,
    buttonEvents := [(.cancel, true), (.cancel, false)] }

/-- Default create_sp_events arguments (interfaces.py 670-672). -/
def spArgsDefault : SpEventsIn :=
  { main_enabled := false, allow_enable := true, enable_pressed := false,
    enable_from_brake := false, enable_pressed_long := false,
    enable_buttons := [.accelCruise, .decelCruise] }

/-- A parked snapshot with the seatbelt unlatched and no button events. -/
def csParkBelt : CsOut :=
  { gearShifter := .park, doorOpen := false, seatbeltUnlatched := true,
    gasPressed := false, brakePressed := false, regenBraking := false,
    standstill := true, brakeHoldActive := false, parkingBrake := false,
    vEgo := 0, espDisabled := false, espActive := false, stockFcw := false,
    stockAeb := false, cruiseAvailable := true, cruiseEnabled := false,
    cruiseNonAdaptive := false, accFaulted := false, steeringPressed := false,
    steerFaultTemporary := false, steerFaultPermanent := false,
    madsEnabled := true, accEnabled := false, disengageByBrake := false,
    latActive := true, belowLaneChangeSpeed := false, brakeLights := false,
    buttonEvents := [] }

/-! ## Helper lemmas -/

theorem mem_addIf {c : Prop} [Decidable c] {e a : EventName} {es : List EventName} :
    a ∈ addIf c e es ↔ (c ∧ a = e) ∨ a ∈ es := by
  unfold addIf
  split
  · simp_all
    tauto
  · simp_all

theorem nn_scan_no_json (q : String) (files : List String) (acc : Option String × ℚ)
    (h : ∀ f ∈ files, strEndsWith f ".json" = false) :
    files.foldl (nn_scan_step q) acc = acc := by
  induction files generalizing acc with
  | nil => rfl
  | cons f t ih =>
    have hf : strEndsWith f ".json" = false := h f (List.mem_cons_self f t)
    have ht : ∀ g ∈ t, strEndsWith g ".json" = false := fun g hg => h g (List.mem_cons_of_mem f hg)
    simp only [List.foldl_cons, nn_scan_step, hf]
    simp only [Bool.false_eq_true, if_false]
    exact ih acc ht

theorem nn_scan_snd_mono (q : String) (files : List String) (acc : Option String × ℚ) :
    acc.2 ≤ (files.foldl (nn_scan_step q) acc).2 := by
  induction files generalizing acc with
  | nil => exact le_refl _
  | cons f t ih =>
    refine le_trans ?_ (ih (nn_scan_step q acc f))
    unfold nn_scan_step
    split
    · split
      · next h => exact le_of_lt h
      · exact le_refl _
    · exact le_refl _

theorem nn_scan_score_le (q : String) (files : List String) (acc : Option String × ℚ)
    (f : String) (hmem : f ∈ files) (hjson : strEndsWith f ".json" = true) :
    nn_model_score q f ≤ (files.foldl (nn_scan_step q) acc).2 := by
  induction files generalizing acc with
  | nil => cases hmem
  | cons g t ih =>
    rcases List.mem_cons.mp hmem with hfg | hft
    · subst hfg
      refine le_trans ?_ (nn_scan_snd_mono q t (nn_scan_step q acc f))
      unfold nn_scan_step
      rw [hjson]
      simp only [if_true]
      split
      · exact le_refl _
      · next h => exact le_of_not_lt h
    · exact ih (nn_scan_step q acc g) hft

/-! ## Claim theorems -/

/-- C10: when the model directory listing has no .json entry,
get_nn_model_path raises (the best-match path stays None and the
membership test on it is a TypeError), and conversely any non-raising
call implies at least one .json model file was present. -/
theorem C10_theorem (files : List String) (car eps : String) :
    ((∀ f ∈ files, strEndsWith f ".json" = false) →
      get_nn_model_path files car eps =
        .error "TypeError: argument of type NoneType is not iterable") ∧
    (∀ r, get_nn_model_path files car eps = .ok r →
      ∃ f ∈ files, strEndsWith f ".json" = true) := by
  constructor
  · intro h
    have h1 : ∀ q : String, check_nn_path files q = (none, -1) := fun q =>
      nn_scan_no_json q files (none, -1) h
    simp only [get_nn_model_path, h1]
  · intro r hok
    by_contra hno
    push_neg at hno
    have h : ∀ f ∈ files, strEndsWith f ".json" = false := by
      intro f hf
      exact Bool.not_eq_true _ ▸ Bool.eq_false_iff.mpr (fun he => (hno f hf he).elim)
    have h1 : ∀ q : String, check_nn_path files q = (none, -1) := fun q =>
      nn_scan_no_json q files (none, -1) h
    rw [show get_nn_model_path files car eps =
        .error "TypeError: argument of type NoneType is not iterable" by
      simp only [get_nn_model_path, h1]] at hok
    cases hok

/-- Witness for C10 on a directory with no model files. -/
theorem C10_witness :
    get_nn_model_path ["README.md"] "Accord" "" =
      .error "TypeError: argument of type NoneType is not iterable" :=
  ( C10_theorem ["README.md"] "Accord" "").1 (by decide)

/-! Concrete SequenceMatcher similarity values for the spec's fuzzy-match
example (each verified against the recursive matching-block decomposition
computed by matchTotal). -/

set_option maxRecDepth 1000000 in
theorem nn_score_accord10 : nn_model_score "Accord" "Accord 1.0.json" = 3 / 4 := by
  have e : strRemove (strRemove "Accord 1.0.json" ".json") (TORQUE_NN_MODEL_PATH ++ "/") =
      "Accord 1.0" := by rfl
  have l : ("Accord 1.0".data).length + ("Accord".data).length = 16 := by rfl
  have m : matchTotal 16 "Accord 1.0".data "Accord".data = 6 := by rfl
  unfold nn_model_score
  rw [e]
  simp only [similarity]
  rw [l, m]
  norm_num

set_option maxRecDepth 1000000 in
theorem nn_score_accord21 : nn_model_score "Accord" "Accord 2.1.json" = 3 / 4 := by
  have e : strRemove (strRemove "Accord 2.1.json" ".json") (TORQUE_NN_MODEL_PATH ++ "/") =
      "Accord 2.1" := by rfl
  have l : ("Accord 2.1".data).length + ("Accord".data).length = 16 := by rfl
  have m : matchTotal 16 "Accord 2.1".data "Accord".data = 6 := by rfl
  unfold nn_model_score
  rw [e]
  simp only [similarity]
  rw [l, m]
  norm_num

set_option maxRecDepth 1000000 in
theorem nn_score_civic : nn_model_score "Accord" "Civic 3.0.json" = 2 / 15 := by
  have e : strRemove (strRemove "Civic 3.0.json" ".json") (TORQUE_NN_MODEL_PATH ++ "/") =
      "Civic 3.0" := by rfl
  have l : ("Civic 3.0".data).length + ("Accord".data).length = 15 := by rfl
  have m : matchTotal 15 "Civic 3.0".data "Accord".data = 1 := by rfl
  unfold nn_model_score
  rw [e]
  simp only [similarity]
  rw [l, m]
  norm_num

set_option maxRecDepth 1000000 in
theorem nn_score_accord10_x : nn_model_score "Accord 2.1x" "Accord 1.0.json" = 16 / 21 := by
  have e : strRemove (strRemove "Accord 1.0.json" ".json") (TORQUE_NN_MODEL_PATH ++ "/") =
      "Accord 1.0" := by rfl
  have l : ("Accord 1.0".data).length + ("Accord 2.1x".data).length = 21 := by rfl
  have m : matchTotal 21 "Accord 1.0".data "Accord 2.1x".data = 8 := by rfl
  unfold nn_model_score
  rw [e]
  simp only [similarity]
  rw [l, m]
  norm_num

set_option maxRecDepth 1000000 in
theorem nn_score_accord21_x : nn_model_score "Accord 2.1x" "Accord 2.1.json" = 20 / 21 := by
  have e : strRemove (strRemove "Accord 2.1.json" ".json") (TORQUE_NN_MODEL_PATH ++ "/") =
      "Accord 2.1" := by rfl
  have l : ("Accord 2.1".data).length + ("Accord 2.1x".data).length = 21 := by rfl
  have m : matchTotal 21 "Accord 2.1".data "Accord 2.1x".data = 10 := by rfl
  unfold nn_model_score
  rw [e]
  simp only [similarity]
  rw [l, m]
  norm_num

set_option maxRecDepth 1000000 in
theorem nn_score_civic_x : nn_model_score "Accord 2.1x" "Civic 3.0.json" = 3 / 10 := by
  have e : strRemove (strRemove "Civic 3.0.json" ".json") (TORQUE_NN_MODEL_PATH ++ "/") =
      "Civic 3.0" := by rfl
  have l : ("Civic 3.0".data).length + ("Accord 2.1x".data).length = 20 := by rfl
  have m : matchTotal 20 "Civic 3.0".data "Accord 2.1x".data = 3 := by rfl
  unfold nn_model_score
  rw [e]
  simp only [similarity]
  rw [l, m]
  norm_num

set_option maxRecDepth 1000000 in
theorem check_nn_accord : check_nn_path accordFiles "Accord" =
    (some (TORQUE_NN_MODEL_PATH ++ "/Accord 1.0.json"), 3 / 4) := by
  have hb1 : strEndsWith "Accord 1.0.json" ".json" = true := by rfl
  have hb2 : strEndsWith "Accord 2.1.json" ".json" = true := by rfl
  have hb3 : strEndsWith "Civic 3.0.json" ".json" = true := by rfl
  unfold check_nn_path accordFiles
  simp only [List.foldl_cons, List.foldl_nil]
  unfold nn_scan_step
  rw [hb1, hb2, hb3, nn_score_accord10, nn_score_accord21, nn_score_civic]
  norm_num
  rfl

set_option maxRecDepth 1000000 in
theorem check_nn_accord_x : check_nn_path accordFiles "Accord 2.1x" =
    (some (TORQUE_NN_MODEL_PATH ++ "/Accord 2.1.json"), 20 / 21) := by
  have hb1 : strEndsWith "Accord 1.0.json" ".json" = true := by rfl
  have hb2 : strEndsWith "Accord 2.1.json" ".json" = true := by rfl
  have hb3 : strEndsWith "Civic 3.0.json" ".json" = true := by rfl
  unfold check_nn_path accordFiles
  simp only [List.foldl_cons, List.foldl_nil]
  unfold nn_scan_step
  rw [hb1, hb2, hb3, nn_score_accord10_x, nn_score_accord21_x, nn_score_civic_x]
  norm_num
  rfl

set_option maxRecDepth 1000000 in
/-- C5 counterexample: querying ("Accord", "2.1") does NOT select
"Accord 2.1" — the eps firmware string "2.1" has length 3, not > 3, so the
combined query is never formed; the search runs on "Accord" alone, whose
best similarity 3/4 is below 0.9, and both passes fail, returning no model
(with the retry's best score). -/
theorem C5_counterexample :
    get_nn_model_path accordFiles "Accord" "2.1" = .ok (none, 3 / 4) := by
  have hlen : ¬ 3 < ("2.1" : String).length := by decide
  have hin : strIn "Accord" (TORQUE_NN_MODEL_PATH ++ "/Accord 1.0.json") = true := by rfl
  simp only [get_nn_model_path]
  rw [if_neg hlen, check_nn_accord]
  simp only [hin]
  norm_num

set_option maxRecDepth 1000000 in
/-- C5 amended: the combined "{car} {eps}" query is used only when the eps
firmware string is longer than 3 characters — any eps of length at most 3
behaves exactly like the empty string; the scan does return an entry of
maximal similarity (every .json file's score is bounded by the returned
maximum); querying ("Accord", "") yields no model (best similarity 3/4 <
0.9 on both passes); and with a longer firmware string such as "2.1x" the
procedure does select "Accord 2.1" (similarity 20/21 ≥ 0.9). -/
theorem C5_amended_theorem :
    (∀ (files : List String) (car eps : String), eps.length ≤ 3 →
      get_nn_model_path files car eps = get_nn_model_path files car "") ∧
    (∀ (files : List String) (q f : String), f ∈ files → strEndsWith f ".json" = true →
      nn_model_score q f ≤ (check_nn_path files q).2) ∧
    get_nn_model_path accordFiles "Accord" "" = .ok (none, 3 / 4) ∧
    get_nn_model_path accordFiles "Accord" "2.1x" =
      .ok (some (TORQUE_NN_MODEL_PATH ++ "/Accord 2.1.json"), 20 / 21) := by
  refine ⟨?_, ?_, ?_, ?_⟩
  · intro files car eps h
    have h1 : ¬ 3 < eps.length := not_lt.mpr h
    have h2 : ¬ 3 < ("" : String).length := by decide
    simp only [get_nn_model_path, if_neg h1, if_neg h2]
  · intro files q f hmem hjson
    exact nn_scan_score_le q files (none, -1) f hmem hjson
  · have hlen : ¬ 3 < ("" : String).length := by decide
    have hin : strIn "Accord" (TORQUE_NN_MODEL_PATH ++ "/Accord 1.0.json") = true := by rfl
    simp only [get_nn_model_path]
    rw [if_neg hlen, check_nn_accord]
    simp only [hin]
    norm_num
  · have hlen : 3 < ("2.1x" : String).length := by decide
    have hq : "Accord" ++ " " ++ strRemove "2.1x" "\\" = "Accord 2.1x" := by rfl
    have hin : strIn "Accord" (TORQUE_NN_MODEL_PATH ++ "/Accord 2.1.json") = true := by rfl
    simp only [get_nn_model_path]
    rw [if_pos hlen, hq, check_nn_accord_x]
    simp only [hin]
    norm_num

/-- Witness for C5 (amended): the length-3 eps string "2.1" behaves like an
empty firmware string. -/
theorem C5_amended_witness :
    get_nn_model_path accordFiles "Accord" "2.1" =
      get_nn_model_path accordFiles "Accord" "" :=
  C5_amended_theorem.1 accordFiles "Accord" "2.1" (by decide)

/-! Structural facts about the mid-tick MADS window state. -/

theorem mads_st2_prev (st : MadsState) (i : MadsInput) :
    (mads_st2 st i).madsEnabledInitPrev = st.madsEnabledInitPrev := by
  unfold mads_st2
  split_ifs <;> rfl

theorem mads_st2_init (st : MadsState) (i : MadsInput) :
    (mads_st2 st i).madsEnabledInit = (st.madsEnabledInit || i.madsEnabled) := by
  unfold mads_st2
  split_ifs with h1 h2 h2 <;> cases hm : st.madsEnabledInit <;> simp_all

theorem mads_st2_last_nf (st : MadsState) (i : MadsInput)
    (h : i.gearShifter ∉ FORWARD_GEARS) : (mads_st2 st i).last_mads_init = i.now := by
  unfold mads_st2
  split_ifs <;> simp_all

/-! The four ticks of the C1 run, evaluated one at a time. -/

theorem c1_tick1 : get_sp_started_mads madsInit ⟨true, true, true, false, true, .drive, 0⟩ =
    (⟨true, false, 0⟩, false) := by
  have hd : GearShifter.drive ∈ FORWARD_GEARS := by decide
  norm_num [get_sp_started_mads, mads_st2, madsInit, hd]

theorem c1_tick2 : get_sp_started_mads ⟨true, false, 0⟩
    ⟨true, true, true, false, true, .drive, 2⟩ = (⟨true, true, 0⟩, true) := by
  have hd : GearShifter.drive ∈ FORWARD_GEARS := by decide
  norm_num [get_sp_started_mads, mads_st2, hd]

theorem c1_tick3 : get_sp_started_mads ⟨true, true, 0⟩
    ⟨true, true, true, false, true, .park, 201 / 100⟩ =
    (⟨true, true, 201 / 100⟩, false) := by
  have hp : (GearShifter.park ∈ FORWARD_GEARS) = False := by simp [FORWARD_GEARS]
  norm_num [get_sp_started_mads, mads_st2, hp]

theorem c1_tick4 : get_sp_started_mads ⟨true, true, 201 / 100⟩
    ⟨true, true, true, false, true, .drive, 202 / 100⟩ =
    (⟨true, true, 201 / 100⟩, true) := by
  have hd : GearShifter.drive ∈ FORWARD_GEARS := by decide
  norm_num [get_sp_started_mads, mads_st2, hd]

/-- C1 counterexample: a four-tick run (all ticks with the MADS main toggle
on and no ACC/MADS combo) in which the debounce property fails.  After the
first 1.0-second window completes (tick 2, armed at t=2), the gear leaves
the forward set at t=2.01 — restarting the window per the code's own
bookkeeping — yet on returning to drive at t=2.02 the function reports
armed immediately, only 0.01s after the restart. -/
theorem C1_counterexample :
    (∀ i ∈ c1Run, i.mads_main_toggle = true ∧ i.prev_acc_mads_combo = false) ∧
    ¬ madsDebounceProp madsInit c1Run := by
  refine ⟨by decide, ?_⟩
  intro hP
  simp only [c1Run, madsDebounceProp, c1_tick1, c1_tick2, c1_tick3, c1_tick4] at hP
  have h4 := hP.2.2.2.1
  norm_num at h4

/-- C1 amended: the debounce property holds on every tick on which the
first pending window has not yet completed (madsEnabledInitPrev still
false): the reported value is armed only when at least 1.0 second has
elapsed since the window start and cruise is available, and any
non-forward-gear tick (outside the availability-drop reset) restarts the
window to the current instant.  After the first completed window, a return
to a forward gear re-arms immediately (the counterexample), so the claim's
"never before 1.0 second since the window started" holds only up to the
first arming. -/
theorem C1_amended_theorem (st : MadsState) (i : MadsInput)
    (htog : i.mads_main_toggle = true) (hcombo : i.prev_acc_mads_combo = false)
    (hprev : st.madsEnabledInitPrev = false) :
    ((get_sp_started_mads st i).2 = true →
      (get_sp_started_mads st i).1.last_mads_init + 1 ≤ i.now ∧ i.available = true) ∧
    ((i.available = true ∨ i.prevAvailable = false) → i.gearShifter ∉ FORWARD_GEARS →
      (get_sp_started_mads st i).1.last_mads_init = i.now) := by
  have h2 : ¬(¬i.mads_main_toggle ∨ i.prev_acc_mads_combo) := by simp [htog, hcombo]
  constructor
  · intro hout
    by_cases h1 : ¬i.available ∧ i.prevAvailable
    · exfalso
      revert hout
      simp [get_sp_started_mads, h1]
    · revert hout
      simp only [get_sp_started_mads, if_neg h1, if_neg h2]
      split_ifs with hmain hpend
      · intro hout
        cases hout
      · intro hout
        exact ⟨le_of_not_lt hpend, hout⟩
      · intro hout
        exfalso
        have hm : i.madsEnabled = true := hout
        have hini : (mads_st2 st i).madsEnabledInit = true := by
          rw [mads_st2_init]
          simp [hm]
        have hpr : (mads_st2 st i).madsEnabledInitPrev = false := by
          rw [mads_st2_prev]
          exact hprev
        exact hmain ⟨hini, Or.inl (by simp [hpr])⟩
  · intro hav hgear
    by_cases h1 : ¬i.available ∧ i.prevAvailable
    · exfalso
      rcases hav with hav | hav
      · exact h1.1 hav
      · rw [hav] at h1
        exact absurd h1.2 (by simp)
    · have hlast : (mads_st2 st i).last_mads_init = i.now := mads_st2_last_nf st i hgear
      simp only [get_sp_started_mads, if_neg h1, if_neg h2]
      split_ifs with hmain hpend
      · exact hlast
      · exact hlast
      · exact hlast

/-- Witness for C1 (amended): a non-forward-gear tick restarts the window
to the current instant. -/
theorem C1_amended_witness :
    (get_sp_started_mads madsInit ⟨true, true, true, false, true, .park, 5⟩).1.last_mads_init
      = (5 : ℚ) :=
  (C1_amended_theorem madsInit ⟨true, true, true, false, true, .park, 5⟩ rfl rfl rfl).2
    (Or.inl rfl) (by decide)

/-- C3 counterexample: with MADS armed, cruise enabled at the previous
tick's end (cancel latch clear) and two cancel button edges in one tick,
create_sp_events emits manualLongitudinalRequired for the first edge and
NOTHING for the repeated one — no buttonCancel event is produced, contrary
to the claim that a repeated cancel press while armed emits buttonCancel. -/
theorem C3_counterexample :
    csCancelTwice.madsEnabled = true ∧
    csCancelTwice.buttonEvents = [(.cancel, true), (.cancel, false)] ∧
    (create_sp_events spNoPcm [] csCancelTwice false false csCancelTwice [] spArgsDefault).1 =
      [.manualLongitudinalRequired] ∧
    EventName.buttonCancel ∉
      (create_sp_events spNoPcm [] csCancelTwice false false csCancelTwice [] spArgsDefault).1 := by
  decide

/-- C3 amended: per cancel button event — when MADS is not armed a
buttonCancel event is emitted; when armed and the cancel latch
(cruise_cancelled_btn) is clear, manualLongitudinalRequired is emitted and
the latch set (this is the "first occurrence": the latch is clear exactly
when cruise was enabled at the previous tick's end); when armed with the
latch already set, no event at all is emitted (not buttonCancel). -/
theorem C3_amended_theorem (pcmCruise enable_mads : Bool) (ebs : List ButtonType)
    (mads cruise : Bool) (st : List EventName × Bool × Bool × Bool) (p : Bool) :
    (mads = false →
      (sp_button_step pcmCruise enable_mads ebs mads cruise st (.cancel, p)).1 =
        st.1 ++ [.buttonCancel]) ∧
    (mads = true → st.2.2.2 = false →
      (sp_button_step pcmCruise enable_mads ebs mads cruise st (.cancel, p)).1 =
        st.1 ++ [.manualLongitudinalRequired] ∧
      (sp_button_step pcmCruise enable_mads ebs mads cruise st (.cancel, p)).2.2.2 = true) ∧
    (mads = true → st.2.2.2 = true →
      (sp_button_step pcmCruise enable_mads ebs mads cruise st (.cancel, p)).1 = st.1 ∧
      (sp_button_step pcmCruise enable_mads ebs mads cruise st (.cancel, p)).2.2.2 = true) := by
  refine ⟨?_, ?_, ?_⟩
  · intro hm
    simp [sp_button_step, hm]
  · intro hm hl
    simp [sp_button_step, hm, hl]
  · intro hm hl
    simp [sp_button_step, hm, hl]

/-- Witness for C3 (amended): a first cancel press while armed with the
latch clear emits manualLongitudinalRequired and latches. -/
theorem C3_amended_witness :
    (sp_button_step false true [] true true ([], false, false, false) (.cancel, true)).1 =
      [.manualLongitudinalRequired] ∧
    (sp_button_step false true [] true true ([], false, false, false) (.cancel, true)).2.2.2 =
      true :=
  (C3_amended_theorem false true [] true true ([], false, false, false) true).2.1 rfl rfl

/-- C4 counterexample: for the concrete parked snapshot with the seatbelt
unlatched (MADS armed, fresh warning counters), the emitted common-event
list does NOT include seatbeltNotLatched — the claim's required event is
absent — while lateral control is indeed suppressed. -/
theorem C4_counterexample :
    csParkBelt.gearShifter = .park ∧ csParkBelt.seatbeltUnlatched = true ∧
    EventName.seatbeltNotLatched ∉
      (create_common_events spNoPcm csParkBelt ⟨0, 0, false, false⟩ csParkBelt true false none
        true true).1 ∧
    (get_sp_common_state spNoPcm csParkBelt csParkBelt ⟨false, true, false, true⟩
      ⟨0, false, false⟩ true false).1.latActive = false := by
  refine ⟨rfl, rfl, ?_, ?_⟩
  · norm_num [create_common_events, mem_addIf, csParkBelt, spNoPcm,
      MAX_CTRL_SPEED, V_CRUISE_MAX, KPH_TO_MS]
    decide
  · norm_num [get_sp_common_state, csParkBelt]

/-- C4 amended: for any snapshot with gear in park and the seatbelt
unlatched, lateral control is suppressed (latActive false) regardless of
the armed state, but the event set does NOT include seatbeltNotLatched —
the source emits it only when the gear is not park (interfaces.py 459). -/
theorem C4_amended_theorem (P : SpParams) (prev cs : CsOut) (CS : CsState) (exp : ExpState)
    (iface : IfaceState) (latActive longActive gear_allowed gap_button : Bool)
    (extra_gears : Option (List GearShifter)) (pcm_enable allow_enable : Bool)
    (hg : cs.gearShifter = .park) (_hs : cs.seatbeltUnlatched = true) :
    EventName.seatbeltNotLatched ∉
      (create_common_events P prev iface cs latActive longActive extra_gears
        pcm_enable allow_enable).1 ∧
    (get_sp_common_state P prev cs CS exp gear_allowed gap_button).1.latActive = false := by
  constructor
  · simp [create_common_events, mem_addIf, hg]
  · simp [get_sp_common_state, hg]

/-- The persistent disengageByBrake flag after a full tick equals: cleared
when no disqualifying pedal is active, else the value latched by
get_sp_common_state. -/
theorem sp_tick_CSdbb (P : SpParams) (prev cs : CsOut) (CS : CsState) (exp : ExpState)
    (iface : IfaceState) (gear_allowed gap_button latActive longActive : Bool)
    (extra_gears : Option (List GearShifter)) (pcm_enable allow_enable : Bool)
    (mainButtons : List Bool) (latch : Bool) (args : SpEventsIn) :
    (sp_tick P prev cs CS exp iface gear_allowed gap_button latActive longActive
        extra_gears pcm_enable allow_enable mainButtons latch args).2.2.1 =
      if ¬cs.brakePressed ∧ ¬cs.brakeHoldActive ∧ ¬cs.parkingBrake ∧ ¬cs.regenBraking
      then false else sp_dbb_after_common P prev cs CS := rfl

/-- The snapshot's disengageByBrake copy after a full tick (the brake-hold
block of create_common_events may additionally set it). -/
theorem sp_tick_csdbb (P : SpParams) (prev cs : CsOut) (CS : CsState) (exp : ExpState)
    (iface : IfaceState) (gear_allowed gap_button latActive longActive : Bool)
    (extra_gears : Option (List GearShifter)) (pcm_enable allow_enable : Bool)
    (mainButtons : List Bool) (latch : Bool) (args : SpEventsIn) :
    (sp_tick P prev cs CS exp iface gear_allowed gap_button latActive longActive
        extra_gears pcm_enable allow_enable mainButtons latch args).2.1.disengageByBrake =
      if ¬cs.brakePressed ∧ ¬cs.brakeHoldActive ∧ ¬cs.parkingBrake ∧ ¬cs.regenBraking
      then false
      else if cs.brakeHoldActive ∧ P.openpilotLongitudinalControl ∧
          sp_mads_after_sync P prev cs CS then true
      else sp_dbb_after_common P prev cs CS := rfl

/-- C2: over a full tick, the persistent disengageByBrake flag transitions
false-to-true only when a qualifying pedal edge (gas rising edge with
accelerator-disengage configured, brake pressed on a rising edge or while
moving, or regen braking likewise) occurs while the state's mads_enabled
(after the sync block) is true; and on any tick where none of brake,
brake-hold, parking-brake or regen braking is active, both the persistent
flag and the snapshot copy are cleared. -/
theorem C2_theorem (P : SpParams) (prev cs : CsOut) (CS : CsState) (exp : ExpState)
    (iface : IfaceState) (gear_allowed gap_button latActive longActive : Bool)
    (extra_gears : Option (List GearShifter)) (pcm_enable allow_enable : Bool)
    (mainButtons : List Bool) (latch : Bool) (args : SpEventsIn) :
    ((sp_tick P prev cs CS exp iface gear_allowed gap_button latActive longActive
        extra_gears pcm_enable allow_enable mainButtons latch args).2.2.1 = true →
      CS.disengageByBrake = false →
      sp_pedal_disengage P.disengage_on_accelerator prev cs = true ∧
      sp_mads_after_sync P prev cs CS = true) ∧
    (¬cs.brakePressed ∧ ¬cs.brakeHoldActive ∧ ¬cs.parkingBrake ∧ ¬cs.regenBraking →
      (sp_tick P prev cs CS exp iface gear_allowed gap_button latActive longActive
        extra_gears pcm_enable allow_enable mainButtons latch args).2.2.1 = false ∧
      (sp_tick P prev cs CS exp iface gear_allowed gap_button latActive longActive
        extra_gears pcm_enable allow_enable mainButtons latch args).2.1.disengageByBrake =
        false) := by
  constructor
  · intro h h0
    rw [sp_tick_CSdbb] at h
    by_cases hnp : ¬cs.brakePressed ∧ ¬cs.brakeHoldActive ∧ ¬cs.parkingBrake ∧ ¬cs.regenBraking
    · rw [if_pos hnp] at h
      cases h
    · rw [if_neg hnp] at h
      unfold sp_dbb_after_common at h
      split_ifs at h with hc
      · exact hc
      · exact absurd h (by simp [h0])
  · intro hnp
    exact ⟨by rw [sp_tick_CSdbb, if_pos hnp], by rw [sp_tick_csdbb, if_pos hnp]⟩

/-- Witness for C2 at a concrete pedal-free tick: both flags come out
cleared. -/
theorem C2_witness :
    (sp_tick spNoPcm csParkBelt csParkBelt ⟨false, true, true, true⟩ ⟨0, false, false⟩
        ⟨0, 0, false, false⟩ true false false false none true true [] false
        spArgsDefault).2.2.1 = false ∧
    (sp_tick spNoPcm csParkBelt csParkBelt ⟨false, true, true, true⟩ ⟨0, false, false⟩
        ⟨0, 0, false, false⟩ true false false false none true true [] false
        spArgsDefault).2.1.disengageByBrake = false :=
  (C2_theorem spNoPcm csParkBelt csParkBelt ⟨false, true, true, true⟩ ⟨0, false, false⟩
    ⟨0, 0, false, false⟩ true false false false none true true [] false spArgsDefault).2
    (by decide)

/-- Witness for C4 (amended) at the concrete parked snapshot. -/
theorem C4_amended_witness :
    EventName.seatbeltNotLatched ∉
      (create_common_events spNoPcm csParkBelt ⟨0, 0, false, true⟩ csParkBelt false false none
        true true).1 ∧
    (get_sp_common_state spNoPcm csParkBelt csParkBelt ⟨false, false, false, true⟩
      ⟨0, false, false⟩ true false).1.latActive = false :=
  C4_amended_theorem spNoPcm csParkBelt csParkBelt ⟨false, false, false, true⟩
    ⟨0, false, false⟩ ⟨0, 0, false, true⟩ false false true false none true true rfl rfl

/-- C7: on every tick, if |raw - filtered| > 2.0 the Kalman state is
overwritten to [raw, 0] before the ordinary update (and the resulting
filtered speed equals raw exactly, so it snaps on that same tick);
otherwise only the ordinary update is applied. -/
theorem C7_theorem (K0 K1 : ℚ) (st : KF1DState) (raw : ℚ) :
    (2 < |raw - st.x0| →
      update_speed_kf K0 K1 st raw = kf1d_update K0 K1 ⟨raw, 0⟩ raw ∧
      (update_speed_kf K0 K1 st raw).x0 = raw) ∧
    (¬2 < |raw - st.x0| →
      update_speed_kf K0 K1 st raw = kf1d_update K0 K1 st raw) := by
  constructor
  · intro h
    refine ⟨by simp [update_speed_kf, if_pos h], ?_⟩
    simp only [update_speed_kf, if_pos h, kf1d_update]
    ring
  · intro h
    simp [update_speed_kf, if_neg h]

/-- Witness for C7 at a concrete divergent input. -/
theorem C7_witness :
    update_speed_kf (1/2) (1/2) ⟨0, 0⟩ 10 = kf1d_update (1/2) (1/2) ⟨10, 0⟩ 10 ∧
    (update_speed_kf (1/2) (1/2) ⟨0, 0⟩ 10).x0 = 10 :=
  (C7_theorem (1/2) (1/2) ⟨0, 0⟩ 10).1 (by norm_num)

/-- C9: set_profile is total and always stores one of the four known
profiles (any unparsable or out-of-range input falls back to stock);
is_enabled is false exactly for the stock profile; and get_accel_limits
passes the caller's limits through exactly in the stock case, otherwise
returning the interpolated profile-specific limits. -/
theorem C9_theorem :
    (∀ v : ProfileVal,
      set_profile v = DP_ACCEL_STOCK ∨ set_profile v = DP_ACCEL_ECO ∨
      set_profile v = DP_ACCEL_NORMAL ∨ set_profile v = DP_ACCEL_SPORT) ∧
    (∀ p : ℤ, is_enabled p = false ↔ p = DP_ACCEL_STOCK) ∧
    (∀ (p : ℤ) (v_ego : ℚ) (lims : ℚ × ℚ),
      (is_enabled p = false → get_accel_limits p v_ego lims = lims) ∧
      (is_enabled p = true →
        get_accel_limits p v_ego lims = dp_calc_cruise_accel_limits p v_ego)) := by
  refine ⟨?_, ?_, ?_⟩
  · intro v
    unfold set_profile
    cases pyInt v with
    | none => simp
    | some n =>
      by_cases h : n = DP_ACCEL_STOCK ∨ n = DP_ACCEL_ECO ∨ n = DP_ACCEL_NORMAL ∨ n = DP_ACCEL_SPORT
      · simpa [if_pos h] using h
      · simp [if_neg h]
  · intro p
    simp [is_enabled]
  · intro p v_ego lims
    constructor
    · intro h
      have hp : p = DP_ACCEL_STOCK := by simpa [is_enabled] using h
      simp [get_accel_limits, hp]
    · intro h
      have hp : p ≠ DP_ACCEL_STOCK := by simpa [is_enabled] using h
      simp [get_accel_limits, hp]

/-- Witness for C9: a non-numeric string falls back to stock, and the
sport profile switches to the interpolated limits. -/
theorem C9_witness :
    (set_profile (.str "garbage") = DP_ACCEL_STOCK ∨ set_profile (.str "garbage") = DP_ACCEL_ECO ∨
      set_profile (.str "garbage") = DP_ACCEL_NORMAL ∨ set_profile (.str "garbage") = DP_ACCEL_SPORT) ∧
    get_accel_limits 3 7 (-1, 1) = dp_calc_cruise_accel_limits 3 7 :=
  ⟨C9_theorem.1 (.str "garbage"), (C9_theorem.2.2 3 7 (-1, 1)).2 (by decide)⟩

/-- C6: for an input shorter than the model's input size, evaluation
zero-pads the missing trailing features and produces a result whenever at
least 2 features are present, and fails with the ValueError condition when
fewer than 2 features are given. -/
theorem C6_theorem (m : FluxModel) (input : List ℝ) (hlt : input.length < m.input_size) :
    (2 ≤ input.length →
      fluxEvaluate m input =
        .ok (fluxEvalCore m (input ++ List.replicate (m.input_size - input.length) 0))) ∧
    (input.length < 2 →
      fluxEvaluate m input =
        .error "ValueError: Input array length must be length 2 or greater") := by
  have hne : input.length ≠ m.input_size := Nat.ne_of_lt hlt
  constructor
  · intro h2
    simp [fluxEvaluate, hne, h2]
  · intro h2
    simp [fluxEvaluate, hne, Nat.not_le.mpr h2]

/-- Witness for C6: the empty input fails on a model of input size 3. -/
theorem C6_witness :
    fluxEvaluate fluxProbeModel [] =
      .error "ValueError: Input array length must be length 2 or greater" :=
  (C6_theorem fluxProbeModel [] (by norm_num [fluxProbeModel])).2 (by norm_num)

theorem torqueStep_ok_ex (sub : List (String × String)) (params override : List (String × List ℚ))
    (legend : List String) (acc : List (String × List (String × ℚ))) (c : String)
    (h : torqueStepOK sub params override c) :
    ∃ rec, torqueStep sub params override legend acc c =
      .ok (insertRecords sub acc c (resolveKey sub c) rec) := by
  unfold torqueStep
  rw [if_neg (not_lt.mpr h.1)]
  cases ho : List.lookup (resolveKey sub c) override with
  | some out => exact ⟨legend.zip out, by simp only [ho]⟩
  | none =>
    cases hp : List.lookup (resolveKey sub c) params with
    | some out => exact ⟨legend.zip out, by simp only [ho, hp]⟩
    | none =>
      exfalso
      rcases h.2 with h2 | h2
      · rw [ho] at h2
        simp at h2
      · rw [hp] at h2
        simp at h2

theorem torqueStep_err (sub : List (String × String)) (params override : List (String × List ℚ))
    (legend : List String) (acc : List (String × List (String × ℚ))) (c : String)
    (h : ¬ torqueStepOK sub params override c) :
    ∃ msg, torqueStep sub params override legend acc c = .error msg := by
  unfold torqueStep
  by_cases h1 : 1 < layerCount sub params override c
  · exact ⟨_, by rw [if_pos h1]⟩
  · rw [if_neg h1]
    have h2 : ¬((List.lookup (resolveKey sub c) override).isSome ∨
        (List.lookup (resolveKey sub c) params).isSome) :=
      fun hor => h ⟨not_lt.mp h1, hor⟩
    cases ho : List.lookup (resolveKey sub c) override with
    | some out => exact absurd (Or.inl (by simp [ho])) h2
    | none =>
      cases hp : List.lookup (resolveKey sub c) params with
      | some out => exact absurd (Or.inr (by simp [hp])) h2
      | none =>
        exact ⟨"Did not find torque params for " ++ resolveKey sub c, by simp only [ho, hp]⟩

theorem lookup_cons_isSome {α β : Type} [BEq α] (k a : α) (b : β) (l : List (α × β))
    (h : (List.lookup k l).isSome = true) :
    (List.lookup k ((a, b) :: l)).isSome = true := by
  simp only [List.lookup]
  split <;> simp_all

theorem insertRecords_lookup_self (sub : List (String × String))
    (acc : List (String × List (String × ℚ))) (c : String) (rec : List (String × ℚ)) :
    ((insertRecords sub acc c (resolveKey sub c) rec).lookup c).isSome = true := by
  unfold insertRecords
  split_ifs with hs
  · simp [List.lookup]
  · have hnone : List.lookup c sub = none := by
      cases h : List.lookup c sub
      · rfl
      · rw [h] at hs
        simp at hs
    unfold resolveKey
    rw [hnone]
    simp [List.lookup]

theorem insertRecords_lookup_mono (sub : List (String × String))
    (acc : List (String × List (String × ℚ))) (c sub_c : String) (rec : List (String × ℚ))
    (k : String) (h : (acc.lookup k).isSome = true) :
    ((insertRecords sub acc c sub_c rec).lookup k).isSome = true := by
  unfold insertRecords
  split_ifs with hs
  · exact lookup_cons_isSome k c rec _ (lookup_cons_isSome k sub_c rec acc h)
  · exact lookup_cons_isSome k sub_c rec acc h

theorem torque_fold_ok (sub : List (String × String)) (params override : List (String × List ℚ))
    (legend : List String) (l : List String)
    (h : ∀ c ∈ l, torqueStepOK sub params override c) :
    ∀ acc, ∃ m,
      l.foldlM (fun acc c => torqueStep sub params override legend acc c) acc = .ok m ∧
      (∀ k, (acc.lookup k).isSome = true → (m.lookup k).isSome = true) ∧
      (∀ c ∈ l, (m.lookup c).isSome = true) := by
  induction l with
  | nil =>
    intro acc
    exact ⟨acc, rfl, fun k hk => hk, by simp⟩
  | cons c t ih =>
    intro acc
    obtain ⟨rec, hstep⟩ := torqueStep_ok_ex sub params override legend acc c
      (h c (List.mem_cons_self c t))
    obtain ⟨m, hfold, hmono, hall⟩ := ih (fun d hd => h d (List.mem_cons_of_mem c hd))
      (insertRecords sub acc c (resolveKey sub c) rec)
    refine ⟨m, ?_, ?_, ?_⟩
    · rw [List.foldlM_cons, hstep]
      simpa using hfold
    · intro k hk
      exact hmono k (insertRecords_lookup_mono sub acc c _ rec k hk)
    · intro d hd
      rcases List.mem_cons.mp hd with hdc | hdt
      · subst hdc
        exact hmono d (insertRecords_lookup_self sub acc d rec)
      · exact hall d hdt

theorem torque_fold_err (sub : List (String × String)) (params override : List (String × List ℚ))
    (legend : List String) (l : List String) (c : String) (hc : c ∈ l)
    (h : ¬ torqueStepOK sub params override c) :
    ∀ acc, ∃ msg,
      l.foldlM (fun acc c => torqueStep sub params override legend acc c) acc = .error msg := by
  induction l with
  | nil => cases hc
  | cons a t ih =>
    intro acc
    by_cases hA : torqueStepOK sub params override a
    · obtain ⟨rec, hstep⟩ := torqueStep_ok_ex sub params override legend acc a hA
      have hct : c ∈ t := by
        rcases List.mem_cons.mp hc with hh | hh
        · subst hh
          exact absurd hA h
        · exact hh
      obtain ⟨msg, hrest⟩ := ih hct (insertRecords sub acc a (resolveKey sub a) rec)
      refine ⟨msg, ?_⟩
      rw [List.foldlM_cons, hstep]
      simpa using hrest
    · obtain ⟨msg, hstep⟩ := torqueStep_err sub params override legend acc a hA
      refine ⟨msg, ?_⟩
      rw [List.foldlM_cons, hstep]
      rfl

/-- C8 amended: loading the torque table fails when a candidate key is
present in more than one layer; it also fails when a candidate's resolved
key is found in neither the override nor the base table — even if that
resolved key is itself a key of the substitution table; when every
candidate passes both checks the load succeeds and every candidate key
maps to a tuning record. -/
theorem C8_amended_theorem (sub : List (String × String)) (params override : List (String × List ℚ))
    (legend : List String) :
    ((∃ c ∈ torqueCandidates sub params override, 1 < layerCount sub params override c) →
      ∃ msg, get_torque_params sub params override legend = .error msg) ∧
    ((∃ c ∈ torqueCandidates sub params override,
        List.lookup (resolveKey sub c) override = none ∧
        List.lookup (resolveKey sub c) params = none) →
      ∃ msg, get_torque_params sub params override legend = .error msg) ∧
    ((∀ c ∈ torqueCandidates sub params override, torqueStepOK sub params override c) →
      ∃ m, get_torque_params sub params override legend = .ok m ∧
        ∀ c ∈ torqueCandidates sub params override, (m.lookup c).isSome = true) := by
  refine ⟨?_, ?_, ?_⟩
  · rintro ⟨c, hc, h1⟩
    have hbad : ¬ torqueStepOK sub params override c := fun hOK => absurd hOK.1 (not_le.mpr h1)
    obtain ⟨msg, hm⟩ := torque_fold_err sub params override legend _ c hc hbad []
    exact ⟨msg, hm⟩
  · rintro ⟨c, hc, h1, h2⟩
    have hbad : ¬ torqueStepOK sub params override c := by
      rintro ⟨-, hor⟩
      rcases hor with hh | hh
      · rw [h1] at hh
        simp at hh
      · rw [h2] at hh
        simp at hh
    obtain ⟨msg, hm⟩ := torque_fold_err sub params override legend _ c hc hbad []
    exact ⟨msg, hm⟩
  · intro hall
    obtain ⟨m, hm, _, hl⟩ := torque_fold_ok sub params override legend _ hall []
    exact ⟨m, hm, hl⟩

/-- C8 counterexample: a substitution entry CARA -> CARA whose resolved key
is absent from the base and override tables.  No key is in more than one
layer and the resolved key is present in a layer (the substitution table),
so the claim says the load succeeds — yet the code raises
NotImplementedError. -/
theorem C8_counterexample :
    (∀ c ∈ torqueCandidates [("CARA", "CARA")] [] [],
      layerCount [("CARA", "CARA")] [] [] c ≤ 1 ∧
      (List.lookup (resolveKey [("CARA", "CARA")] c) [("CARA", "CARA")]).isSome = true) ∧
    exceptIsError (get_torque_params [("CARA", "CARA")] [] [] []) = true := by decide

/-- Witness for C8 (amended): a well-formed alias configuration loads and
maps both the alias and the canonical key. -/
theorem C8_amended_witness :
    ∃ m, get_torque_params [("ALIAS", "CANON")] [("CANON", [1, 2])] []
        ["FRICTION", "LAT_ACCEL_FACTOR"] = .ok m ∧
      ∀ c ∈ torqueCandidates [("ALIAS", "CANON")] [("CANON", [1, 2])] [],
        (m.lookup c).isSome = true :=
  (C8_amended_theorem [("ALIAS", "CANON")] [("CANON", [1, 2])] [] ["FRICTION", "LAT_ACCEL_FACTOR"]).2.2
    (by decide)

end Sunnypilot
